import Mathlib

/-!
A shallow embedding of the scrape orchestration and caching layer of the
linkedin-job-finder repository (src/app/actions/scrape-jobs.ts and
src/app/api/jobs/route.ts), together with theorems settling the frozen
claims about it.

Modelling conventions:
- JavaScript strings are Lean String; undefined / absent values are Option.
- Date.now, Math.random and browser interaction are passed in as explicit
  oracles (a timestamp, index-choice functions, and a fetch function from a
  URL to either raw records or a thrown-error message).
- A JavaScript function that can throw is embedded as Except String.
- The in-memory Map cache is an association list with Map.set semantics.
-/

/-- JavaScript List-of-char prefix test (used to embed String.prototype.includes). -/
def listStarts : List Char → List Char → Bool
  | [], _ => true
  | _ :: _, [] => false
  | a :: as, b :: bs => a == b && listStarts as bs

/-- Substring occurrence test on character lists. -/
def listHasSub (pat : List Char) : List Char → Bool
  | [] => listStarts pat []
  | c :: cs => listStarts pat (c :: cs) || listHasSub pat cs

/-- Embedding of JavaScript s.includes(pat). -/
def strIncludes (s pat : String) : Bool :=
  listHasSub pat.toList s.toList

/-- Embedding of JavaScript s.toLowerCase() (character-list based so that it
evaluates inside the kernel; all compared text here is basic latin). -/
def strToLower (s : String) : String :=
  ⟨s.data.map Char.toLower⟩

/-- The Job record as constructed at runtime by scrape-jobs.ts.  The TypeScript
interface declares jobType as a required string, but the mock generator can in
fact index an empty array, so the runtime value of the field is modelled as an
Option. -/
structure Job where
  id : String
  title : String
  company : String
  location : String
  jobType : Option String
  datePosted : String
  description : String
  url : String
  logoUrl : Option String
  salary : Option String
  skills : Option (List String)

/-- ScrapeOptions from src/types/job.ts, after the defaults applied by the
destructuring in scrapeLinkedInJobsInternal (location = "", jobType = "all",
datePosted = "anytime", page = 1). -/
structure ScrapeOptions where
  keywords : String
  location : String
  jobType : String
  datePosted : String
  page : Nat

/-- One entry of the in-memory jobCache Map. -/
structure CacheEntry where
  jobs : List Job
  timestamp : Nat

/-- The jobCache Map, embedded as an association list keyed by the cache key. -/
abbrev Cache := List (String × CacheEntry)

/-- CACHE_TIME = 30 * 60 * 1000 (30 minutes in milliseconds). -/
def CACHE_TIME : Nat := 30 * 60 * 1000

/-- The cache key template string from line 20 of scrape-jobs.ts. -/
def cacheKeyOf (o : ScrapeOptions) : String :=
  o.keywords ++ "-" ++ o.location ++ "-" ++ o.jobType ++ "-" ++ o.datePosted
    ++ "-" ++ toString o.page

/-- The cached-result read: jobCache.get plus the freshness test
Date.now() - cachedResult.timestamp < CACHE_TIME.  Read-only: it never
modifies the store, so stale entries stay resident. -/
def cacheGet (c : Cache) (now : Nat) (key : String) : Option CacheEntry :=
  match List.lookup key c with
  | some e => if now - e.timestamp < CACHE_TIME then some e else none
  | none => none

/-- jobCache.set: unconditional overwrite of the entry for the key. -/
def cachePut (c : Cache) (key : String) (e : CacheEntry) : Cache :=
  (key, e) :: c.filter (fun p => p.1 != key)

/-- The jobTypeMap table from lines 38-45 of scrape-jobs.ts. -/
def jobTypeTable : List (String × String) :=
  [("fulltime", "F"), ("parttime", "P"), ("contract", "C"),
   ("temporary", "T"), ("internship", "I"), ("remote", "R")]

/-- The datePostedMap table from lines 54-58 of scrape-jobs.ts. -/
def datePostedTable : List (String × String) :=
  [("past24hours", "r86400"), ("pastWeek", "r604800"), ("pastMonth", "r2592000")]

/-- URL construction from lines 30-69 of scrape-jobs.ts.  encodeURIComponent is
passed in as the function enc. -/
def buildSearchUrl (enc : String → String) (o : ScrapeOptions) : String :=
  let u0 := "https://www.linkedin.com/jobs/search/?keywords=" ++ enc o.keywords
  let u1 := if o.location ≠ "" then u0 ++ "&location=" ++ enc o.location else u0
  let u2 :=
    if o.jobType ≠ "all" then
      match List.lookup o.jobType jobTypeTable with
      | some v => u1 ++ "&f_JT=" ++ v
      | none => u1
    else u1
  let u3 :=
    if o.datePosted ≠ "anytime" then
      match List.lookup o.datePosted datePostedTable with
      | some v => u2 ++ "&f_TPR=" ++ v
      | none => u2
    else u2
  if 1 < o.page then u3 ++ "&start=" ++ toString ((o.page - 1) * 25) else u3

/-- The fixed jobTypes list of getMockJobs (line 230). -/
def jobTypesList : List String :=
  ["Full-time", "Part-time", "Contract", "Remote", "Internship"]

/-- The datePostedOptions list of getMockJobs (line 231). -/
def datePostedOptionsList : List String :=
  ["1 day ago", "2 days ago", "3 days ago", "1 week ago", "Just now"]

/-- The companies list of getMockJobs (lines 232-243). -/
def companiesList : List String :=
  ["Tech Solutions Inc.", "Global Innovations", "Digital Enterprises",
   "Future Systems", "Smart Technologies", "Nexus Corporation",
   "Quantum Computing", "Cyber Security Ltd", "Cloud Platforms Inc",
   "Data Analytics Co"]

/-- The locations list of getMockJobs (lines 244-257): biased toward the
requested location when one was given. -/
def locationsList (location : String) : List String :=
  if location ≠ "" then [location, location, location, "Remote", location]
  else
    ["Remote", "New York, NY", "San Francisco, CA", "Austin, TX", "Seattle, WA",
     "Boston, MA", "Chicago, IL", "Los Angeles, CA", "Denver, CO", "Atlanta, GA"]

/-- The salaries list of getMockJobs (lines 258-264). -/
def salariesList : List String :=
  ["$80,000 - $100,000 a year", "$120,000 - $150,000 a year",
   "$60,000 - $80,000 a year", "$100,000 - $130,000 a year",
   "$90,000 - $110,000 a year"]

/-- The skills list of getMockJobs (lines 265-276). -/
def mockSkillsLists : List (List String) :=
  [["JavaScript", "React", "Node.js", "TypeScript"],
   ["Python", "Django", "Flask", "AWS"],
   ["Java", "Spring", "Hibernate", "Microservices"],
   ["C#", ".NET", "Azure", "SQL Server"],
   ["Go", "Docker", "Kubernetes", "CI/CD"],
   ["PHP", "Laravel", "MySQL", "Redis"],
   ["Ruby", "Rails", "PostgreSQL", "Heroku"],
   ["Swift", "iOS", "Objective-C", "Mobile Development"],
   ["Kotlin", "Android", "Firebase", "Mobile Development"],
   ["Rust", "WebAssembly", "Systems Programming", "Performance"]]

/-- The roles list of generateJobTitle (lines 280-296). -/
def rolesList : List String :=
  ["Specialist", "Engineer", "Developer", "Manager", "Analyst", "Consultant",
   "Architect", "Designer", "Lead", "Director", "Programmer", "Administrator",
   "Technician", "Coordinator", "Strategist"]

/-- The prefixes list of generateJobTitle (line 297). -/
def seniorityList : List String :=
  ["Senior", "Junior", "Principal", "Associate", ""]

/-- generateJobTitle (lines 279-302).  The Math.random prefix draw is passed in
as the chosen index pick (reduced modulo the list length, as Math.floor of a
random in [0, length) always lands in range). -/
def generateJobTitle (pick : Nat) (keyword : String) (i : Nat) : String :=
  let pfx := seniorityList.getD (pick % seniorityList.length) ""
  let role := rolesList.getD (i % rolesList.length) ""
  if pfx ≠ "" then pfx ++ " " ++ keyword ++ " " ++ role
  else keyword ++ " " ++ role

/-- The filteredJobTypes computation (lines 304-306): when a jobType filter is
given, keep the fixed types whose lower-cased label contains the lower-cased
filter as a substring; there is no non-empty fallback. -/
def filteredJobTypes (jobType : String) : List String :=
  if jobType ≠ "all" then
    jobTypesList.filter (fun t => strIncludes (strToLower t) (strToLower jobType))
  else jobTypesList

/-- The dateFilter computation (lines 308-316). -/
def dateFilterList (datePosted : String) : List String :=
  if datePosted = "past24hours" then ["Just now", "1 day ago"]
  else if datePosted = "pastWeek" then
    ["Just now", "1 day ago", "2 days ago", "3 days ago"]
  else datePostedOptionsList

/-- charAt(0) of a company name, used for the placeholder logo URL. -/
def companyInitial (s : String) : String :=
  match s.toList with
  | [] => ""
  | c :: _ => String.singleton c

/-- The mock description template literal (lines 329-338), including trim. -/
def mockDescription (company title jt loc : String) (skillSet : List String)
    (hasSalary : Bool) (salaryStr : String) : String :=
  ("\n      " ++ company ++ " is seeking a " ++ title ++ " to join our team. \n      This is a "
    ++ strToLower jt ++ " position "
    ++ (if loc = "Remote" then "that can be performed remotely" else "located in " ++ loc)
    ++ ".\n      \n      The ideal candidate will have experience with "
    ++ String.intercalate ", " skillSet
    ++ ".\n      \n      "
    ++ (if hasSalary then
          "This position offers a competitive salary range of " ++ salaryStr ++ "."
        else "")
    ++ "\n      \n      Apply now to join our innovative team!\n    ").trim

/-- One iteration of the Array.from body of getMockJobs (lines 318-353).
Indexing filteredJobTypes at i % length is undefined when the filtered list is
empty (i % 0 is NaN in JavaScript), and the description template then calls
toLowerCase on undefined, which throws a TypeError; the error branch embeds
that throw. -/
def mkMockJob (pfxChoice : Nat → Nat) (now : Nat)
    (keywords location jobType datePosted : String) (i : Nat) :
    Except String Job :=
  let fjt := filteredJobTypes jobType
  let df := dateFilterList datePosted
  let locs := locationsList location
  let skillSet := mockSkillsLists.getD (i % mockSkillsLists.length) []
  let company := companiesList.getD (i % companiesList.length) ""
  let title := generateJobTitle (pfxChoice i) keywords i
  let loc := locs.getD (i % locs.length) ""
  match fjt.get? (i % fjt.length) with
  | none =>
      Except.error "TypeError: Cannot read properties of undefined (reading toLowerCase)"
  | some jt =>
      let dp := df.getD (i % df.length) ""
      let hasSalary := i % 3 == 0
      let salaryStr := salariesList.getD (i % salariesList.length) ""
      Except.ok
        { id := "mock-" ++ toString i ++ "-" ++ toString now
          title := title
          company := company
          location := loc
          jobType := some jt
          datePosted := dp
          description := mockDescription company title jt loc skillSet hasSalary salaryStr
          url := "https://linkedin.com/jobs"
          logoUrl := some ("/placeholder.svg?height=40&width=40&text=" ++ companyInitial company)
          salary := if hasSalary then some salaryStr else none
          skills := some skillSet }

/-- Sequential evaluation of Array.from over the index list: the first thrown
error aborts the whole construction. -/
def exMapM (f : Nat → Except String Job) : List Nat → Except String (List Job)
  | [] => Except.ok []
  | x :: xs =>
    match f x with
    | Except.error e => Except.error e
    | Except.ok y =>
      match exMapM f xs with
      | Except.error e => Except.error e
      | Except.ok l => Except.ok (y :: l)

/-- getMockJobs (lines 229-354): Array.from of length count over the item
constructor.  Date.now is the now argument and the random prefix draws are the
pfxChoice oracle. -/
def getMockJobs (pfxChoice : Nat → Nat) (now : Nat)
    (keywords location jobType datePosted : String) (count : Nat) :
    Except String (List Job) :=
  exMapM (mkMockJob pfxChoice now keywords location jobType datePosted)
    (List.range count)

/-- A raw candidate record handed back by the browser page: each field is the
optional text or attribute produced by the corresponding selector in the
page.evaluate callback (lines 166-172), none when the selector matched nothing
or the matched node carried no text. -/
structure RawRecord where
  title : Option String
  company : Option String
  location : Option String
  link : Option String
  logo : Option String
  date : Option String
  salary : Option String

/-- Embedding of element?.textContent?.trim() || fallback. -/
def textOr (o : Option String) (d : String) : String :=
  match o with
  | none => d
  | some s => if s.trim = "" then d else s.trim

/-- Embedding of linkElement?.href || "#". -/
def hrefOr (o : Option String) : String :=
  match o with
  | none => "#"
  | some s => if s = "" then "#" else s

/-- Embedding of logoElement?.src || undefined. -/
def srcOr (o : Option String) : Option String :=
  match o with
  | none => none
  | some s => if s = "" then none else some s

/-- Embedding of salaryElement?.textContent?.trim() || undefined. -/
def salaryOr (o : Option String) : Option String :=
  match o with
  | none => none
  | some s => if s.trim = "" then none else some s.trim

/-- The jobType inference from the resolved title (lines 176-187): ordered
lower-cased keyword checks, first match wins, defaulting to Full-time. -/
def inferJobType (title : String) : String :=
  if strIncludes (strToLower title) "part-time" || strIncludes (strToLower title) "part time" then
    "Part-time"
  else if strIncludes (strToLower title) "contract" then "Contract"
  else if strIncludes (strToLower title) "intern" then "Internship"
  else if strIncludes (strToLower title) "remote" then "Remote"
  else "Full-time"

/-- The skillSets list inside the page.evaluate callback (lines 190-196). -/
def extractSkillSets : List (List String) :=
  [["JavaScript", "React", "Node.js", "TypeScript"],
   ["Python", "Django", "Flask", "AWS"],
   ["Java", "Spring", "Hibernate", "Microservices"],
   ["C#", ".NET", "Azure", "SQL Server"],
   ["Go", "Docker", "Kubernetes", "CI/CD"]]

/-- The per-record extraction body (lines 166-213).  The Math.random id token
and skill-set index are passed in as oracles; the random skill index is always
in range, modelled by reducing modulo the list length. -/
def extractJob (idTok : String) (rand : Nat) (r : RawRecord) : Job :=
  let title := textOr r.title ""
  let jt := inferJobType title
  let skillSet := extractSkillSets.getD (rand % extractSkillSets.length) []
  { id := idTok
    title := textOr r.title "Unknown Position"
    company := textOr r.company "Unknown Company"
    location := textOr r.location "Unknown Location"
    jobType := some jt
    datePosted := textOr r.date "Recently posted"
    description := "This position requires expertise in various technologies. Click to view the full job description."
    url := hrefOr r.link
    logoUrl := srcOr r.logo
    salary := salaryOr r.salary
    skills := some skillSet }

/-- jobListings.slice(0, 15).map(...) (line 165): cap the raw records at 15
and extract each, with per-index id and randomness oracles. -/
def extractJobs (ids : Nat → String) (rands : Nat → Nat)
    (records : List RawRecord) : List Job :=
  (records.take 15).enum.map (fun p => extractJob (ids p.1) (rands p.1) p.2)

/-- scrapeWithPlaywright (lines 96-226): the browser interaction (launch,
navigate, wait, query, and the 25-second race) is the external fetchRaw
oracle, which either yields the raw candidate records of the page or the
message of whatever rejection won the race; on success the page.evaluate
extraction runs over the records. -/
def scrapeWithPlaywright (ids : Nat → String) (rands : Nat → Nat)
    (fetchRaw : String → Except String (List RawRecord)) (url : String) :
    Except String (List Job) :=
  match fetchRaw url with
  | Except.error e => Except.error e
  | Except.ok records => Except.ok (extractJobs ids rands records)

/-- The orchestrator result shape.  The object literals built by
scrapeLinkedInJobsInternal carry no warning property, so reading result.warning
always yields undefined; the field is kept here (as an Option that every branch
leaves none) because the spec refers to it. -/
structure ScrapeResult where
  jobs : List Job
  totalCount : Nat
  isFromCache : Bool
  warning : Option String

/-- scrapeLinkedInJobsInternal (lines 12-93), with Date.now fixed to the
request instant now and all randomness passed as oracles.  Returns the result
together with the updated cache, or the error that escaped (an exception
thrown inside the catch block, by getMockJobs, propagates to the caller). -/
def scrapeInternal (enc : String → String) (ids : Nat → String)
    (rands : Nat → Nat) (pfxChoice : Nat → Nat)
    (fetchRaw : String → Except String (List RawRecord))
    (c : Cache) (now : Nat) (opts : ScrapeOptions) :
    Except String (ScrapeResult × Cache) :=
  let cacheKey := cacheKeyOf opts
  match cacheGet c now cacheKey with
  | some entry =>
      Except.ok ({ jobs := entry.jobs, totalCount := entry.jobs.length * 3,
                   isFromCache := true, warning := none }, c)
  | none =>
    let searchUrl := buildSearchUrl enc opts
    match scrapeWithPlaywright ids rands fetchRaw searchUrl with
    | Except.ok jobs =>
        Except.ok ({ jobs := jobs, totalCount := jobs.length * 3,
                     isFromCache := false, warning := none },
                   cachePut c cacheKey ⟨jobs, now⟩)
    | Except.error _ =>
      match getMockJobs pfxChoice now opts.keywords opts.location opts.jobType
          opts.datePosted 15 with
      | Except.error e => Except.error e
      | Except.ok mockJobs =>
          Except.ok ({ jobs := mockJobs, totalCount := 125,
                       isFromCache := false, warning := none },
                     cachePut c cacheKey ⟨mockJobs, now⟩)

/-- The JSON body and status produced by GET /api/jobs.  Option fields model
properties that a given branch leaves out of its body. -/
structure RouteResponse where
  status : Nat
  jobs : Option (List Job)
  totalCount : Option Nat
  isFromCache : Option Bool
  page : Option Nat
  error : Option String

/-- GET of src/app/api/jobs/route.ts (lines 6-69).  searchParams.get("keywords")
is the keywords argument (none when the parameter is missing; the empty string
is also falsy and rejected).  The 50-second race and the awaited orchestrator
collapse into the scrapeOutcome argument: ok when the orchestrator settled
first with a value, error when either promise rejected first. -/
def routeGET (keywords : Option String) (pageParam : Nat)
    (scrapeOutcome : Except String ScrapeResult) : RouteResponse :=
  match keywords with
  | none =>
      { status := 400, jobs := none, totalCount := none, isFromCache := none,
        page := none, error := some "Keywords parameter is required" }
  | some k =>
    if k = "" then
      { status := 400, jobs := none, totalCount := none, isFromCache := none,
        page := none, error := some "Keywords parameter is required" }
    else
      match scrapeOutcome with
      | Except.ok r =>
          { status := 200, jobs := some r.jobs, totalCount := some r.totalCount,
            isFromCache := some r.isFromCache, page := some pageParam, error := none }
      | Except.error _ =>
          { status := 200, jobs := some [], totalCount := some 100,
            isFromCache := none, page := some 1,
            error := some "Could not fetch real job listings, showing sample data instead" }

/-! Concrete oracles and queries used to instantiate the theorems. -/

/-- A fixed random-prefix oracle. -/
def pfx0 : Nat → Nat := fun _ => 0

/-- A fixed id oracle. -/
def ids0 : Nat → String := fun _ => "id"

/-- A fixed skill-set randomness oracle. -/
def rands0 : Nat → Nat := fun _ => 0

/-- The query of Scenario A of the spec. -/
def optsAll : ScrapeOptions := ⟨"engineer", "", "all", "anytime", 1⟩

/-- The same query with the fulltime jobType filter. -/
def optsFull : ScrapeOptions := ⟨"engineer", "", "fulltime", "anytime", 1⟩

/-- A browser step whose race is lost to the 25-second timer. -/
def fetchFail : String → Except String (List RawRecord) := fun _ =>
  Except.error "Scraping timeout"

/-- A browser step that succeeds with no raw candidate records. -/
def fetchEmpty : String → Except String (List RawRecord) := fun _ =>
  Except.ok []

/-- The raw candidate record in which no selector matched anything. -/
def emptyRaw : RawRecord := ⟨none, none, none, none, none, none, none⟩

/-- A browser step succeeding with two empty raw records. -/
def fetchTwo : String → Except String (List RawRecord) := fun _ =>
  Except.ok [emptyRaw, emptyRaw]

/-- The Scenario A query at page 2. -/
def optsPage2 : ScrapeOptions := ⟨"engineer", "", "all", "anytime", 2⟩

/-- The Scenario A query with capitalised keywords. -/
def optsCased : ScrapeOptions := ⟨"Engineer", "", "all", "anytime", 1⟩

/-- Modelled from the claim wording for comparison: the ordered keyword table
of the jobType inference, first row whose keyword list matches winning. -/
def jobTypeKeywordRows : List (List String × String) :=
  [(["part-time", "part time"], "Part-time"), (["contract"], "Contract"),
   (["intern"], "Internship"), (["remote"], "Remote")]

/-- First-match-wins walk over the ordered keyword table, defaulting to
Full-time. -/
def firstKeywordMatch (t : String) : List (List String × String) → String
  | [] => "Full-time"
  | (kws, lbl) :: rest =>
    if kws.any (fun kw => strIncludes t kw) then lbl else firstKeywordMatch t rest

/-- The claim-side inference: lower-case the title once and walk the table. -/
def inferJobTypeOrdered (title : String) : String :=
  firstKeywordMatch (strToLower title) jobTypeKeywordRows

/-! Helper lemmas about the cache and the mock generator. -/

theorem lookup_cachePut_self (c : Cache) (k : String) (e : CacheEntry) :
    List.lookup k (cachePut c k e) = some e := by
  simp [cachePut, List.lookup]

theorem lookup_filter_ne (c : Cache) (k q : String) (h : q ≠ k) :
    List.lookup q (c.filter (fun p => p.1 != k)) = List.lookup q c := by
  induction c with
  | nil => rfl
  | cons a t ih =>
    obtain ⟨a1, a2⟩ := a
    by_cases hak : a1 = k
    · have hb : (a1 != k) = false := by simp [hak]
      have hq : (q == a1) = false := by
        refine beq_eq_false_iff_ne.mpr ?_
        exact fun e => h (hak ▸ e)
      simp only [List.filter_cons, hb, Bool.false_eq_true, if_false,
        List.lookup_cons, hq, ih]
    · have hb : (a1 != k) = true := by simp [hak]
      simp only [List.filter_cons, hb, if_true, List.lookup_cons]
      cases hq : q == a1 with
      | true => rfl
      | false => exact ih

theorem cacheGet_cachePut_fresh (c : Cache) (k : String) (jobs : List Job)
    (t0 t1 : Nat) (h : t1 - t0 < CACHE_TIME) :
    cacheGet (cachePut c k ⟨jobs, t0⟩) t1 k = some ⟨jobs, t0⟩ := by
  simp [cacheGet, lookup_cachePut_self, h]

theorem mkMockJob_ok (pfxChoice : Nat → Nat) (now : Nat)
    (kw loc jt dp : String) (i : Nat) (h : filteredJobTypes jt ≠ []) :
    ∃ j, mkMockJob pfxChoice now kw loc jt dp i = Except.ok j := by
  have hlen : 0 < (filteredJobTypes jt).length := List.length_pos.mpr h
  have hm : i % (filteredJobTypes jt).length < (filteredJobTypes jt).length :=
    Nat.mod_lt _ hlen
  cases he : mkMockJob pfxChoice now kw loc jt dp i with
  | error e =>
    simp only [mkMockJob, List.get?_eq_get hm] at he
    exact Except.noConfusion he
  | ok j => exact ⟨j, rfl⟩

theorem exMapM_ok (f : Nat → Except String Job) (xs : List Nat)
    (h : ∀ x ∈ xs, ∃ j, f x = Except.ok j) :
    ∃ l, exMapM f xs = Except.ok l ∧ l.length = xs.length := by
  induction xs with
  | nil => exact ⟨[], rfl, rfl⟩
  | cons x t ih =>
    obtain ⟨j, hj⟩ := h x (List.mem_cons_self x t)
    obtain ⟨l, hl, hlen⟩ := ih (fun y hy => h y (List.mem_cons_of_mem _ hy))
    exact ⟨j :: l, by simp [exMapM, hj, hl], by simp [hlen]⟩

theorem getMockJobs_ok (pfxChoice : Nat → Nat) (now : Nat)
    (kw loc jt dp : String) (count : Nat) (h : filteredJobTypes jt ≠ []) :
    ∃ l, getMockJobs pfxChoice now kw loc jt dp count = Except.ok l ∧
      l.length = count := by
  obtain ⟨l, hl, hlen⟩ :=
    exMapM_ok (mkMockJob pfxChoice now kw loc jt dp) (List.range count)
      (fun i _ => mkMockJob_ok pfxChoice now kw loc jt dp i h)
  exact ⟨l, hl, by simpa using hlen⟩

/-! The claim theorems. -/

/-- Claim C1: the claim states getMockJobs always returns exactly n jobs with a
defined non-empty jobType, falling back to the unfiltered type list when the
filter matches none of the fixed types.  The code has no such fallback: for
jobType = fulltime the substring filter leaves an empty pool, the indexing
yields undefined, and the description template throws, so getMockJobs throws
instead of returning; with a matching filter such as remote it does return all
15 jobs. -/
theorem c1_mock_empty_pool_throws :
    filteredJobTypes "fulltime" = [] ∧
    getMockJobs pfx0 0 "engineer" "" "fulltime" "anytime" 15 =
      Except.error "TypeError: Cannot read properties of undefined (reading toLowerCase)" ∧
    Except.map List.length (getMockJobs pfx0 0 "engineer" "" "remote" "anytime" 15) =
      Except.ok 15 :=
  ⟨by decide, rfl, rfl⟩

/-- Claim C6: a cache lookup treats the entry as absent when none exists and
when the entry age exceeds the 30-minute TTL (the stale entry stays resident,
cacheGet being a pure read), and a cache write unconditionally overwrites the
entry for that fingerprint, leaving other fingerprints untouched. -/
theorem c6_cache_semantics (c : Cache) (now : Nat) (k : String) :
    (List.lookup k c = none → cacheGet c now k = none) ∧
    (∀ e : CacheEntry, List.lookup k c = some e → CACHE_TIME < now - e.timestamp →
      cacheGet c now k = none ∧ List.lookup k c = some e) ∧
    (∀ e : CacheEntry, List.lookup k (cachePut c k e) = some e) ∧
    (∀ (e : CacheEntry) (q : String), q ≠ k →
      List.lookup q (cachePut c k e) = List.lookup q c) := by
  refine ⟨?_, ?_, ?_, ?_⟩
  · intro h
    simp [cacheGet, h]
  · intro e he hstale
    refine ⟨?_, he⟩
    have hnot : ¬ (now - e.timestamp < CACHE_TIME) := by omega
    simp [cacheGet, he, hnot]
  · intro e
    exact lookup_cachePut_self c k e
  · intro e q hq
    have hb : (q == k) = false := beq_eq_false_iff_ne.mpr hq
    simp only [cachePut, List.lookup_cons, hb]
    exact lookup_filter_ne c k q hq

/-- Witness for C6 at a concrete store, key and instant. -/
theorem c6_cache_semantics_witness :
    cacheGet [] 0 "k" = none ∧
    (cacheGet [("k", ⟨[], 0⟩)] (CACHE_TIME + 1) "k" = none ∧
      List.lookup "k" ([("k", ⟨[], 0⟩)] : Cache) = some ⟨[], 0⟩) ∧
    List.lookup "k" (cachePut [("k", ⟨[], 0⟩)] "k" ⟨[], 5⟩) = some ⟨[], 5⟩ ∧
    List.lookup "x" (cachePut [("k", ⟨[], 0⟩)] "k" ⟨[], 5⟩) =
      List.lookup "x" ([("k", ⟨[], 0⟩)] : Cache) :=
  ⟨(c6_cache_semantics [] 0 "k").1 rfl,
   (c6_cache_semantics [("k", ⟨[], 0⟩)] (CACHE_TIME + 1) "k").2.1 ⟨[], 0⟩ rfl
     (by decide),
   (c6_cache_semantics [("k", ⟨[], 0⟩)] (CACHE_TIME + 1) "k").2.2.1 ⟨[], 5⟩,
   (c6_cache_semantics [("k", ⟨[], 0⟩)] (CACHE_TIME + 1) "k").2.2.2 ⟨[], 5⟩ "x"
     (by decide)⟩

/-- Claim C7: extracting a raw record in which no field matched any selector
still yields a Job whose required fields are all populated with the documented
non-empty placeholders, never an absent or empty value. -/
theorem c7_extraction_placeholders (idTok : String) (rand : Nat) :
    (extractJob idTok rand emptyRaw).title = "Unknown Position" ∧
    (extractJob idTok rand emptyRaw).company = "Unknown Company" ∧
    (extractJob idTok rand emptyRaw).location = "Unknown Location" ∧
    (extractJob idTok rand emptyRaw).jobType = some "Full-time" ∧
    (extractJob idTok rand emptyRaw).datePosted = "Recently posted" ∧
    (extractJob idTok rand emptyRaw).description =
      "This position requires expertise in various technologies. Click to view the full job description." ∧
    (extractJob idTok rand emptyRaw).url = "#" :=
  ⟨rfl, rfl, rfl, rfl, rfl, rfl, rfl⟩

/-- Claim C8: the per-listing jobType is inferred from the lower-cased resolved
title by the fixed ordered keyword table with first match winning, and the
extraction assigns exactly that inference (the requested Query.jobType is not
an input of extractJob at all, so it plays no role); the final two conjuncts
exhibit the ordering on titles containing several keywords. -/
theorem c8_jobtype_inference (title idTok : String) (rand : Nat) (r : RawRecord) :
    inferJobType title = inferJobTypeOrdered title ∧
    (extractJob idTok rand r).jobType = some (inferJobType (textOr r.title "")) ∧
    inferJobType "Remote part time intern on contract" = "Part-time" ∧
    inferJobType "Remote contract intern" = "Contract" := by
  refine ⟨?_, rfl, by decide, by decide⟩
  simp only [inferJobType, inferJobTypeOrdered, firstKeywordMatch,
    jobTypeKeywordRows, List.any_cons, List.any_nil, Bool.or_false]

/-- Claim C10: when the orchestrator promise rejects (or the route-level
50-second timer rejects first), the GET /api/jobs handler answers HTTP 200
with an empty jobs list, totalCount fixed at 100, and an error message that
announces sample data. -/
theorem c10_route_error_path (k : String) (hk : k ≠ "") (msg : String) (page : Nat) :
    routeGET (some k) page (Except.error msg) =
      { status := 200, jobs := some [], totalCount := some 100,
        isFromCache := none, page := some 1,
        error := some "Could not fetch real job listings, showing sample data instead" } := by
  simp [routeGET, hk]

/-- Witness for C10 on the engineer query with a request-timeout rejection. -/
theorem c10_route_error_path_witness :
    routeGET (some "engineer") 3 (Except.error "Request timeout") =
      { status := 200, jobs := some [], totalCount := some 100,
        isFromCache := none, page := some 1,
        error := some "Could not fetch real job listings, showing sample data instead" } :=
  c10_route_error_path "engineer" (by decide) "Request timeout" 3

/-- Inversion: whenever a call returns without error and is not a cache hit,
the cache it hands back is the one it wrote for the fingerprint, holding the
returned jobs stamped with the call instant. -/
theorem scrapeInternal_writes (enc : String → String) (ids : Nat → String)
    (rands : Nat → Nat) (pfx : Nat → Nat)
    (fetchRaw : String → Except String (List RawRecord))
    (c0 : Cache) (t0 : Nat) (opts : ScrapeOptions) (r1 : ScrapeResult) (c1 : Cache)
    (h1 : scrapeInternal enc ids rands pfx fetchRaw c0 t0 opts = Except.ok (r1, c1))
    (hfirst : r1.isFromCache = false) :
    c1 = cachePut c0 (cacheKeyOf opts) ⟨r1.jobs, t0⟩ := by
  simp only [scrapeInternal, scrapeWithPlaywright] at h1
  split at h1
  · rw [Except.ok.injEq, Prod.mk.injEq] at h1
    obtain ⟨hr, hc⟩ := h1
    rw [← hr] at hfirst
    simp at hfirst
  · split at h1
    · rw [Except.ok.injEq, Prod.mk.injEq] at h1
      obtain ⟨hr, hc⟩ := h1
      rw [← hc, ← hr]
    · split at h1
      · exact Except.noConfusion h1
      · rw [Except.ok.injEq, Prod.mk.injEq] at h1
        obtain ⟨hr, hc⟩ := h1
        rw [← hc, ← hr]

/-- Claim C3 counterexample: a first call that fell back to synthetic jobs
reports totalCount 125, while the immediate identical second call answers from
the cache with isFromCache true but totalCount 45 — not identical to the
first call's totalCount as the claim states. -/
theorem c3_counterexample :
    Except.map (fun p => p.1.totalCount)
      (scrapeInternal id ids0 rands0 pfx0 fetchFail [] 0 optsAll) =
      Except.ok 125 ∧
    Except.map (fun p => (p.1.isFromCache, p.1.totalCount))
      (Except.bind (scrapeInternal id ids0 rands0 pfx0 fetchFail [] 0 optsAll)
        (fun p => scrapeInternal id ids0 rands0 pfx0 fetchFail p.2 1 optsAll)) =
      Except.ok (true, 45) ∧
    (45 : Nat) ≠ 125 :=
  ⟨rfl, rfl, by decide⟩

/-- Claim C3 as amended: if the first call returned without error and was not
itself a cache hit, a second identical call within the TTL answers from the
cache with isFromCache true, jobs identical to the first call's, and
totalCount equal to three times the number of cached jobs (which matches the
first call's totalCount after a successful scrape but not after the synthetic
fallback, whose totalCount is the constant 125). -/
theorem c3_amended (enc enc2 : String → String) (ids ids2 : Nat → String)
    (rands rands2 : Nat → Nat) (pfx pfx2 : Nat → Nat)
    (fetchRaw fetchRaw2 : String → Except String (List RawRecord))
    (c0 c1 : Cache) (t0 t1 : Nat) (opts : ScrapeOptions) (r1 : ScrapeResult)
    (h1 : scrapeInternal enc ids rands pfx fetchRaw c0 t0 opts = Except.ok (r1, c1))
    (hfirst : r1.isFromCache = false)
    (hfresh : t1 - t0 < CACHE_TIME) :
    scrapeInternal enc2 ids2 rands2 pfx2 fetchRaw2 c1 t1 opts =
      Except.ok ({ jobs := r1.jobs, totalCount := r1.jobs.length * 3,
                   isFromCache := true, warning := none }, c1) := by
  have hc1 := scrapeInternal_writes enc ids rands pfx fetchRaw c0 t0 opts r1 c1 h1 hfirst
  subst hc1
  simp only [scrapeInternal,
    cacheGet_cachePut_fresh c0 (cacheKeyOf opts) r1.jobs t0 t1 hfresh]

/-- Witness for the amended C3: an empty-result scrape at instant 0 followed by
the identical query at instant 1. -/
theorem c3_amended_witness :
    scrapeInternal id ids0 rands0 pfx0 fetchEmpty
        (cachePut [] (cacheKeyOf optsAll) ⟨[], 0⟩) 1 optsAll =
      Except.ok ({ jobs := [], totalCount := 0, isFromCache := true,
                   warning := none },
                 cachePut [] (cacheKeyOf optsAll) ⟨[], 0⟩) :=
  c3_amended id id ids0 ids0 rands0 rands0 pfx0 pfx0 fetchEmpty fetchEmpty
    [] (cachePut [] (cacheKeyOf optsAll) ⟨[], 0⟩) 0 1 optsAll
    ⟨[], 0, false, none⟩ rfl rfl (by decide)

/-- Claim C2 counterexample: on the Scenario A query a timed-out browser step
yields 15 synthetic jobs with isFromCache false, but the result's warning is
absent rather than a string mentioning the timeout; and for a query whose
jobType filter (fulltime) matches no fixed mock type the failure is re-raised
to the caller instead of being converted into fallback jobs. -/
theorem c2_counterexample :
    Except.map (fun p => (p.1.warning, p.1.isFromCache, p.1.jobs.length))
      (scrapeInternal id ids0 rands0 pfx0 fetchFail [] 0 optsAll) =
      Except.ok (none, false, 15) ∧
    scrapeInternal id ids0 rands0 pfx0 fetchFail [] 0 optsFull =
      Except.error "TypeError: Cannot read properties of undefined (reading toLowerCase)" :=
  ⟨rfl, rfl⟩

/-- Claim C2 as amended: on a cache miss whose browser step fails, provided the
query's jobType filter leaves the mock type pool non-empty, the orchestrator
returns isFromCache false with 15 synthetic jobs (so jobs.length > 0) and
totalCount 125, and no warning field is produced; the failure is not re-raised
for such queries. -/
theorem c2_amended (enc : String → String) (ids : Nat → String)
    (rands : Nat → Nat) (pfx : Nat → Nat)
    (fetchRaw : String → Except String (List RawRecord))
    (c : Cache) (now : Nat) (opts : ScrapeOptions) (msg : String)
    (hft : filteredJobTypes opts.jobType ≠ [])
    (hmiss : cacheGet c now (cacheKeyOf opts) = none)
    (hb : fetchRaw (buildSearchUrl enc opts) = Except.error msg) :
    ∃ mockJobs : List Job,
      mockJobs.length = 15 ∧
      scrapeInternal enc ids rands pfx fetchRaw c now opts =
        Except.ok ({ jobs := mockJobs, totalCount := 125, isFromCache := false,
                     warning := none },
                   cachePut c (cacheKeyOf opts) ⟨mockJobs, now⟩) := by
  obtain ⟨l, hl, hlen⟩ := getMockJobs_ok pfx now opts.keywords opts.location
    opts.jobType opts.datePosted 15 hft
  exact ⟨l, hlen, by simp only [scrapeInternal, scrapeWithPlaywright, hmiss, hb, hl]⟩

/-- Witness for the amended C2 on the Scenario A query with a timed-out
browser step. -/
theorem c2_amended_witness :
    ∃ mockJobs : List Job,
      mockJobs.length = 15 ∧
      scrapeInternal id ids0 rands0 pfx0 fetchFail [] 0 optsAll =
        Except.ok ({ jobs := mockJobs, totalCount := 125, isFromCache := false,
                     warning := none },
                   cachePut [] (cacheKeyOf optsAll) ⟨mockJobs, 0⟩) :=
  c2_amended id ids0 rands0 pfx0 fetchFail [] 0 optsAll "Scraping timeout"
    (by decide) rfl rfl

/-- Claim C4 counterexample: a cache miss in which the browser step yields two
raw records produces two extracted jobs but totalCount 6, three times the
extracted count, contradicting totalCount = len(jobs). -/
theorem c4_counterexample :
    Except.map (fun p => (p.1.jobs.length, p.1.totalCount, p.1.isFromCache,
        p.1.warning))
      (scrapeInternal id ids0 rands0 pfx0 fetchTwo [] 0 optsAll) =
      Except.ok (2, 6, false, none) ∧
    (6 : Nat) ≠ 2 :=
  ⟨rfl, by decide⟩

/-- Claim C4 as amended: on a cache miss whose browser step succeeds, the
result is the extracted (and capped) job list with totalCount equal to three
times the extracted count, isFromCache false and no warning, and the entry is
cached. -/
theorem c4_amended (enc : String → String) (ids : Nat → String)
    (rands : Nat → Nat) (pfx : Nat → Nat)
    (fetchRaw : String → Except String (List RawRecord))
    (c : Cache) (now : Nat) (opts : ScrapeOptions) (records : List RawRecord)
    (hmiss : cacheGet c now (cacheKeyOf opts) = none)
    (hb : fetchRaw (buildSearchUrl enc opts) = Except.ok records) :
    scrapeInternal enc ids rands pfx fetchRaw c now opts =
      Except.ok ({ jobs := extractJobs ids rands records,
                   totalCount := (extractJobs ids rands records).length * 3,
                   isFromCache := false, warning := none },
                 cachePut c (cacheKeyOf opts) ⟨extractJobs ids rands records, now⟩) := by
  simp only [scrapeInternal, scrapeWithPlaywright, hmiss, hb]

/-- Witness for the amended C4 on the Scenario A query with two raw records. -/
theorem c4_amended_witness :
    scrapeInternal id ids0 rands0 pfx0 fetchTwo [] 0 optsAll =
      Except.ok ({ jobs := extractJobs ids0 rands0 [emptyRaw, emptyRaw],
                   totalCount := (extractJobs ids0 rands0 [emptyRaw, emptyRaw]).length * 3,
                   isFromCache := false, warning := none },
                 cachePut [] (cacheKeyOf optsAll)
                   ⟨extractJobs ids0 rands0 [emptyRaw, emptyRaw], 0⟩) :=
  c4_amended id ids0 rands0 pfx0 fetchTwo [] 0 optsAll [emptyRaw, emptyRaw]
    rfl rfl

/-- Claim C5 counterexample: two requests agreeing on all four normalized
query fields but differing in page get different fingerprints, and two
requests whose keywords agree after lower-casing also get different
fingerprints — the cache identity is neither limited to the four fields nor
normalized. -/
theorem c5_counterexample :
    (optsAll.keywords = optsPage2.keywords ∧ optsAll.location = optsPage2.location ∧
      optsAll.jobType = optsPage2.jobType ∧ optsAll.datePosted = optsPage2.datePosted) ∧
    cacheKeyOf optsAll ≠ cacheKeyOf optsPage2 ∧
    strToLower optsCased.keywords = strToLower optsAll.keywords ∧
    cacheKeyOf optsCased ≠ cacheKeyOf optsAll := by
  refine ⟨⟨rfl, rfl, rfl, rfl⟩, by decide, by decide, by decide⟩

/-- Claim C5 as amended: the cache identity is the ordered tuple of all five
fields keywords, location, jobType, datePosted and page, joined verbatim (no
trimming or lower-casing): requests agreeing on those five exact fields
compute the same fingerprint. -/
theorem c5_amended (q1 q2 : ScrapeOptions) (hk : q1.keywords = q2.keywords)
    (hl : q1.location = q2.location) (hj : q1.jobType = q2.jobType)
    (hd : q1.datePosted = q2.datePosted) (hp : q1.page = q2.page) :
    cacheKeyOf q1 = cacheKeyOf q2 := by
  simp [cacheKeyOf, hk, hl, hj, hd, hp]

/-- Witness for the amended C5 on two structurally distinct but field-equal
queries. -/
theorem c5_amended_witness :
    cacheKeyOf optsAll = cacheKeyOf ⟨"engineer", "", "all", "anytime", 1⟩ :=
  c5_amended optsAll ⟨"engineer", "", "all", "anytime", 1⟩ rfl rfl rfl rfl rfl

/-- Claim C9: the target URL always carries the URL-encoded keywords, carries
the encoded location only when it is non-empty, and carries f_JT / f_TPR
exactly as given by the fixed tables; the guard values all / anytime and any
value absent from its table contribute no filter parameter (the lookups below
pin down every table entry and the absence of all / anytime). -/
theorem c9_url_construction (enc : String → String) (k loc jt dp : String) (p : Nat) :
    buildSearchUrl enc ⟨k, loc, jt, dp, p⟩ =
      "https://www.linkedin.com/jobs/search/?keywords=" ++ enc k
        ++ (if loc = "" then "" else "&location=" ++ enc loc)
        ++ (match List.lookup jt jobTypeTable with
            | some v => "&f_JT=" ++ v
            | none => "")
        ++ (match List.lookup dp datePostedTable with
            | some v => "&f_TPR=" ++ v
            | none => "")
        ++ (if 1 < p then "&start=" ++ toString ((p - 1) * 25) else "") ∧
    List.lookup "all" jobTypeTable = none ∧
    List.lookup "anytime" datePostedTable = none ∧
    List.lookup "fulltime" jobTypeTable = some "F" ∧
    List.lookup "parttime" jobTypeTable = some "P" ∧
    List.lookup "contract" jobTypeTable = some "C" ∧
    List.lookup "temporary" jobTypeTable = some "T" ∧
    List.lookup "internship" jobTypeTable = some "I" ∧
    List.lookup "remote" jobTypeTable = some "R" ∧
    List.lookup "past24hours" datePostedTable = some "r86400" ∧
    List.lookup "pastWeek" datePostedTable = some "r604800" ∧
    List.lookup "pastMonth" datePostedTable = some "r2592000" := by
  have hall : List.lookup "all" jobTypeTable = none := rfl
  have hany : List.lookup "anytime" datePostedTable = none := rfl
  refine ⟨?_, rfl, rfl, rfl, rfl, rfl, rfl, rfl, rfl, rfl, rfl, rfl⟩
  by_cases hja : jt = "all"
  · subst hja
    by_cases hda : dp = "anytime"
    · subst hda
      by_cases hl : loc = "" <;> by_cases hp : 1 < p <;>
        simp [buildSearchUrl, hl, hp, hall, hany, String.append_assoc]
    · rcases hdp : List.lookup dp datePostedTable with _ | w <;>
        by_cases hl : loc = "" <;> by_cases hp : 1 < p <;>
        simp [buildSearchUrl, hl, hp, hda, hdp, hall, String.append_assoc]
  · by_cases hda : dp = "anytime"
    · subst hda
      rcases hjt : List.lookup jt jobTypeTable with _ | v <;>
        by_cases hl : loc = "" <;> by_cases hp : 1 < p <;>
        simp [buildSearchUrl, hl, hp, hja, hjt, hany, String.append_assoc]
    · rcases hjt : List.lookup jt jobTypeTable with _ | v <;>
        rcases hdp : List.lookup dp datePostedTable with _ | w <;>
        by_cases hl : loc = "" <;> by_cases hp : 1 < p <;>
        simp [buildSearchUrl, hl, hp, hja, hda, hjt, hdp, String.append_assoc]
